import Mathlib

/-!
Verification development for the Electrum client core in pkg/electrum/client.go:
transport selection (Connect, GetTLSConn, GetConn), single-shot request/response
exchange (SendRequest, SendRequestBytes) and peer discovery (GetPeerInfo).

The network world is an oracle (NetEnv) fixing the outcome of every dial, write,
read and close; each client operation returns its Go result together with the
list of network I/O events it performed.  Go runtime panics (method calls on a
nil connection) are modelled explicitly by the POut outcome type, and a Go
(value, error) pair is an (Option value, Option error) pair.
-/

set_option autoImplicit false

namespace Electrum

/-- Identifier standing for a live connection value handed out by a dialer. -/
abbrev ConnId := Nat

/-- A Go error value, represented by its message; a nil error is Option.none. -/
abbrev GoErr := String

/-- Modelled from the spec: the Node Descriptor type (the file defining Node is
not under src/).  Host identifier, plaintext (TCP) port, encrypted (SSL) port,
and the encrypted-transport capability flag. -/
structure Node where
  Host : String
  TCPPort : Nat
  SSLPort : Nat
  SSL : Bool
deriving DecidableEq

/-- Modelled from the spec: derived classification of the host identifier as an
anonymizing-overlay (onion) address, i.e. it ends in the onion suffix. -/
def Node.IsOnion (n : Node) : Bool :=
  List.isSuffixOf (String.toList ".onion") (String.toList n.Host)

/-- Modelled from the spec: whether the node advertises encrypted-transport
support. -/
def Node.SupportsTLS (n : Node) : Bool := n.SSL

/-- Modelled from the spec: the Request Envelope (the file defining
JSONRPCRequest is not under src/): method name, parameter list, correlation id. -/
structure JSONRPCRequest where
  Method : String
  Params : List String
  ID : Nat
deriving DecidableEq

/-- Modelled from the spec: one raw peer-subscription entry (address, host
name, feature strings). -/
structure PeerEntry where
  Address : String
  HostName : String
  Features : List String
deriving DecidableEq

/-- Modelled from the spec: decoded top-level shape of the
server.peers.subscribe response payload. -/
structure ServerPeersSubscriptionResp where
  Result : List PeerEntry
deriving DecidableEq

/-- One network I/O event.  Log output (the loggers attached to Client) and
stdout prints are diagnostics, not network I/O, and are not recorded. -/
inductive Ev where
  | dialTLS (addr : String)
  | dialTCP (addr : String)
  | write (c : ConnId) (data : List Char)
  | read (c : ConnId)
  | close (c : ConnId)
deriving DecidableEq

/-- Oracle for the external world: outcome of each dial (by address string and
timeout), of closing / writing on a connection, and the byte stream the peer
sends before end-of-stream.  The fields unmarshalSPR and parseSPR stand for
encoding/json Unmarshal into ServerPeersSubscriptionResp and for
ParseServerPeersSubscriptionResp (whose file is not under src/); both are kept
abstract, since the claims quantify over their outcomes. -/
structure NetEnv where
  dialTLS : String → Nat → Except GoErr ConnId
  dialTCP : String → Nat → Except GoErr ConnId
  closeRes : ConnId → Option GoErr
  writeRes : ConnId → List Char → Option GoErr
  recv : ConnId → List Char
  unmarshalSPR : List Char → Except GoErr ServerPeersSubscriptionResp
  parseSPR : ServerPeersSubscriptionResp → Except GoErr (List Node)

/-- Outcome of a Go function call: a normal return, or a runtime panic. -/
inductive POut (α : Type) where
  | ret : α → POut α
  | panicked : GoErr → POut α
deriving DecidableEq

/-- Go runtime message for a method call through a nil pointer or interface. -/
def nilDeref : GoErr := "runtime error: invalid memory address or nil pointer dereference"

/-- Calling Close on a possibly-nil connection.  A nil connection (as returned
by a failed dial) panics before any I/O happens; a live one performs one close
whose success is decided by the oracle. -/
def closeConn (env : NetEnv) (conn : Option ConnId) : POut (Option GoErr) × List Ev :=
  match conn with
  | none => (.panicked nilDeref, [])
  | some c => (.ret (env.closeRes c), [.close c])

namespace Client

/-- GetTLSConn (client.go): reject onion nodes and nodes without TLS support
before any I/O, then dial host:SSLPort over TLS (certificate checks skipped). -/
def GetTLSConn (env : NetEnv) (n : Node) (timeout : Nat) :
    (Option ConnId × Option GoErr) × List Ev :=
  if n.IsOnion then
    ((none, some "tor support not yet implemented"), [])
  else if !n.SupportsTLS then
    ((none, some "node does not support SSL/TLS"), [])
  else
    let connStr := n.Host ++ ":" ++ toString n.SSLPort
    match env.dialTLS connStr timeout with
    | .error e =>
        ((none, some ("could not establish TLS connection to " ++ connStr ++ ": " ++ e)),
         [.dialTLS connStr])
    | .ok c => ((some c, none), [.dialTLS connStr])

/-- GetConn (client.go): reject onion nodes before any I/O, then dial
host:TCPPort over plain TCP.  The failure message says TLS in the source; that
typo is reproduced. -/
def GetConn (env : NetEnv) (n : Node) (timeout : Nat) :
    (Option ConnId × Option GoErr) × List Ev :=
  if n.IsOnion then
    ((none, some "tor support not yet implemented"), [])
  else
    let connStr := n.Host ++ ":" ++ toString n.TCPPort
    match env.dialTCP connStr timeout with
    | .error e =>
        ((none, some ("could not establish TLS connection to " ++ connStr ++ ": " ++ e)),
         [.dialTCP connStr])
    | .ok c => ((some c, none), [.dialTCP connStr])

/-- Connect (client.go): onion first (immediate error, message with the
source's typo), else the TLS path when the node supports TLS, else the TCP
path.  On a dial failure the source calls Close on the connection just
returned, which is nil, so that branch panics via closeConn. -/
def Connect (env : NetEnv) (n : Node) (timeout : Nat) :
    POut (Option ConnId × Option GoErr) × List Ev :=
  if n.IsOnion then
    (.ret (none, some "to support not yet implemented"), [])
  else if n.SupportsTLS then
    let r := GetTLSConn env n timeout
    match r.1.2 with
    | some e =>
        let cl := closeConn env r.1.1
        match cl.1 with
        | .panicked m => (.panicked m, r.2 ++ cl.2)
        | .ret _ => (.ret (none, some e), r.2 ++ cl.2)
    | none => (.ret (r.1.1, none), r.2)
  else
    let r := GetConn env n timeout
    match r.1.2 with
    | some e =>
        let cl := closeConn env r.1.1
        match cl.1 with
        | .panicked m => (.panicked m, r.2 ++ cl.2)
        | .ret _ => (.ret (none, some e), r.2 ++ cl.2)
    | none => (.ret (r.1.1, none), r.2)

end Client

/-- Reads from a byte stream until and including the first newline, if one
occurs before end-of-stream. -/
def takeLine : List Char → Option (List Char)
  | [] => none
  | c :: cs => if c = '\n' then some ['\n'] else (takeLine cs).map (fun l => c :: l)

/-- Semantics of bufio Reader.ReadBytes with delimiter newline: the bytes read
up to and including the first newline with a nil error, or, when the stream
ends first, everything that was read together with an end-of-stream error. -/
def readBytesNewline (s : List Char) : List Char × Option GoErr :=
  match takeLine s with
  | some l => (l, none)
  | none => (s, some "EOF")

/-- Modelled from the spec: serialization of a Request Envelope as one JSON
document (the file defining it is not under src/). -/
def JSONRPCRequest.serialize (r : JSONRPCRequest) : List Char :=
  ("\x7b\"jsonrpc\": \"2.0\", \"method\": \"" ++ r.Method ++ "\", \"params\": ["
    ++ String.intercalate ", " (r.Params.map (fun p => "\"" ++ p ++ "\""))
    ++ "], \"id\": " ++ toString r.ID ++ "\x7d").toList

/-- Modelled from the spec: JSONRPCRequest.Send (its file is not under src/),
per the Exchanger contract: write the serialized request followed by a single
newline, then read one newline-terminated record; a stream that ends before
the newline is a protocol error.  It does not close the connection (the
callers in client.go do).  A nil connection would panic on the write. -/
def JSONRPCRequest.Send (env : NetEnv) (r : JSONRPCRequest) (conn : Option ConnId) :
    POut (Option (List Char) × Option GoErr) × List Ev :=
  match conn with
  | none => (.panicked nilDeref, [])
  | some c =>
    let data := r.serialize ++ ['\n']
    match env.writeRes c data with
    | some e => (.ret (none, some e), [.write c data])
    | none =>
        let rd := readBytesNewline (env.recv c)
        match rd.2 with
        | some e => (.ret (none, some ("unexpected close before newline: " ++ e)),
                     [.write c data, .read c])
        | none => (.ret (some rd.1, none), [.write c data, .read c])

namespace Client

/-- SendRequest (client.go): connect, send via JSONRPCRequest.Send, close the
connection on the send-failure path (a close failure is only logged) and on
the success path (close result discarded), and return the response bytes or
the send error. -/
def SendRequest (env : NetEnv) (req : JSONRPCRequest) (n : Node) (timeout : Nat) :
    POut (Option (List Char) × Option GoErr) × List Ev :=
  let c := Connect env n timeout
  match c.1 with
  | .panicked m => (.panicked m, c.2)
  | .ret (conn, err) =>
    match err with
    | some e => (.ret (none, some ("could not connect to " ++ n.Host ++ ": " ++ e)), c.2)
    | none =>
      let s := JSONRPCRequest.Send env req conn
      match s.1 with
      | .panicked m => (.panicked m, c.2 ++ s.2)
      | .ret (resp, serr) =>
        match serr with
        | some e =>
            let cl := closeConn env conn
            match cl.1 with
            | .panicked m => (.panicked m, c.2 ++ s.2 ++ cl.2)
            | .ret _ => (.ret (none, some e), c.2 ++ s.2 ++ cl.2)
        | none =>
            let cl := closeConn env conn
            match cl.1 with
            | .panicked m => (.panicked m, c.2 ++ s.2 ++ cl.2)
            | .ret _ => (.ret (resp, none), c.2 ++ s.2 ++ cl.2)

/-- SendRequestBytes (client.go): connect, write the raw request bytes plus a
newline, then ReadBytes until newline.  The source returns the write error
WITHOUT closing the connection, discards the ReadBytes error (the err checked
after the read is the stale, already-nil write error), closes, and returns
whatever bytes were read as a success. -/
def SendRequestBytes (env : NetEnv) (req : List Char) (n : Node) (timeout : Nat) :
    POut (Option (List Char) × Option GoErr) × List Ev :=
  let c := Connect env n timeout
  match c.1 with
  | .panicked m => (.panicked m, c.2)
  | .ret (conn, err) =>
    match err with
    | some e => (.ret (none, some e), c.2)
    | none =>
      match conn with
      | none => (.panicked nilDeref, c.2)
      | some cid =>
        let data := req ++ ['\n']
        match env.writeRes cid data with
        | some e => (.ret (none, some e), c.2 ++ [.write cid data])
        | none =>
            let rd := readBytesNewline (env.recv cid)
            let cl := closeConn env (some cid)
            match cl.1 with
            | .panicked m => (.panicked m, c.2 ++ [.write cid data, .read cid] ++ cl.2)
            | .ret _ => (.ret (some rd.1, none), c.2 ++ [.write cid data, .read cid] ++ cl.2)

end Client

/-- Modelled from the spec: NewPeerRequest builds the Request Envelope for the
peer-subscription method with the given correlation id (its file is not under
src/). -/
def NewPeerRequest (reqID : Nat) : JSONRPCRequest :=
  { Method := "server.peers.subscribe", Params := [], ID := reqID }

namespace Client

/-- GetPeerInfo (client.go): reject onion nodes before any I/O, send the
peer-subscription request, unmarshal the top-level payload, parse it into
nodes; each failure is returned with a nil node list. -/
def GetPeerInfo (env : NetEnv) (n : Node) (reqID : Nat) (timeout : Nat) :
    POut (Option (List Node) × Option GoErr) × List Ev :=
  if n.IsOnion then
    (.ret (none, some "tor support not yet implemented"), [])
  else
    let s := SendRequest env (NewPeerRequest reqID) n timeout
    match s.1 with
    | .panicked m => (.panicked m, s.2)
    | .ret (resp, err) =>
      match err with
      | some e => (.ret (none, some e), s.2)
      | none =>
        match env.unmarshalSPR (resp.getD []) with
        | .error e => (.ret (none, some e), s.2)
        | .ok spr =>
          match env.parseSPR spr with
          | .error e => (.ret (none, some e), s.2)
          | .ok peers => (.ret (some peers, none), s.2)

end Client

/-! Concrete fixtures used by witnesses and counterexample evaluations. -/

/-- Environment in which every network operation succeeds; the peer answers
one line "pong" and both decode steps succeed with an empty peer list. -/
def okEnv : NetEnv where
  dialTLS := fun _ _ => .ok 0
  dialTCP := fun _ _ => .ok 1
  closeRes := fun _ => none
  writeRes := fun _ _ => none
  recv := fun _ => String.toList "pong\n"
  unmarshalSPR := fun _ => .ok { Result := [] }
  parseSPR := fun _ => .ok []

/-- Environment whose TLS dial is refused. -/
def tlsFailEnv : NetEnv := { okEnv with dialTLS := fun _ _ => .error "connection refused" }

/-- Environment whose TCP dial is refused. -/
def tcpFailEnv : NetEnv := { okEnv with dialTCP := fun _ _ => .error "connection refused" }

/-- Environment in which every write on a connection fails. -/
def writeFailEnv : NetEnv := { okEnv with writeRes := fun _ _ => some "broken pipe" }

/-- Environment whose peer byte stream ends before any newline. -/
def noNewlineEnv : NetEnv := { okEnv with recv := fun _ => String.toList "partial" }

/-- Environment in which the top-level peer payload fails to decode. -/
def badPayloadEnv : NetEnv := { okEnv with unmarshalSPR := fun _ => .error "invalid character" }

/-- A node whose host is an onion address. -/
def onionNode : Node := { Host := "abc.onion", TCPPort := 50001, SSLPort := 50002, SSL := true }

/-- A clearnet node advertising TLS support. -/
def tlsNode : Node := { Host := "example.com", TCPPort := 50001, SSLPort := 50002, SSL := true }

/-- A clearnet node without TLS support. -/
def tcpNode : Node := { Host := "example.com", TCPPort := 50001, SSLPort := 0, SSL := false }

/-- A clearnet node without TLS support whose plaintext port is zero. -/
def zeroPortNode : Node := { Host := "example.com", TCPPort := 0, SSLPort := 0, SSL := false }

/-- Network trace of one successful peer-subscription exchange (request id 7)
against the TCP fixture node. -/
def peerTrace : List Ev :=
  [.dialTCP "example.com:50001", .write 1 ((NewPeerRequest 7).serialize ++ ['\n']),
   .read 1, .close 1]

/-! Helper lemmas. -/

/-- Reading up to a newline from a stream made of a newline-free chunk, the
newline, and a remainder yields exactly the chunk plus the newline. -/
theorem takeLine_append (a b : List Char) (ha : '\n' ∉ a) :
    takeLine (a ++ '\n' :: b) = some (a ++ ['\n']) := by
  induction a with
  | nil => simp [takeLine]
  | cons c cs ih =>
      have hc : ¬ c = '\n' := fun h => ha (h ▸ List.mem_cons_self c cs)
      have hcs : '\n' ∉ cs := fun h => ha (List.mem_cons_of_mem c h)
      simp [takeLine, hc, ih hcs]

/-- GetTLSConn never consults the close oracle. -/
theorem getTLSConn_closeRes_irrelevant (env : NetEnv) (f : ConnId → Option GoErr)
    (n : Node) (t : Nat) :
    Client.GetTLSConn { env with closeRes := f } n t = Client.GetTLSConn env n t := rfl

/-- GetConn never consults the close oracle. -/
theorem getConn_closeRes_irrelevant (env : NetEnv) (f : ConnId → Option GoErr)
    (n : Node) (t : Nat) :
    Client.GetConn { env with closeRes := f } n t = Client.GetConn env n t := rfl

/-- The outcome of Connect, trace included, does not depend on the close
oracle: its only close is of a nil connection, which panics before I/O. -/
theorem connect_closeRes_irrelevant (env : NetEnv) (f : ConnId → Option GoErr)
    (n : Node) (t : Nat) :
    Client.Connect { env with closeRes := f } n t = Client.Connect env n t := by
  simp only [Client.Connect, getTLSConn_closeRes_irrelevant, getConn_closeRes_irrelevant]
  cases hI : n.IsOnion
  · cases hT : n.SupportsTLS
    · cases hd : env.dialTCP (n.Host ++ ":" ++ toString n.TCPPort) t <;>
        simp [Client.GetConn, hI, hT, hd, closeConn]
    · cases hd : env.dialTLS (n.Host ++ ":" ++ toString n.SSLPort) t <;>
        simp [Client.GetTLSConn, hI, hT, hd, closeConn]
  · simp [hI]

/-- Send never consults the close oracle. -/
theorem send_closeRes_irrelevant (env : NetEnv) (f : ConnId → Option GoErr)
    (r : JSONRPCRequest) (conn : Option ConnId) :
    JSONRPCRequest.Send { env with closeRes := f } r conn = JSONRPCRequest.Send env r conn := rfl

/-! Claim theorems. -/

/-- C1: for every node whose host is classified as an onion address, Connect
and GetPeerInfo both return an unsupported-transport error immediately, with
an empty network trace: no dial, no send, no network I/O at all. -/
theorem connect_getPeerInfo_onion_no_io (env : NetEnv) (n : Node) (reqID timeout : Nat)
    (h : n.IsOnion = true) :
    Client.Connect env n timeout = (.ret (none, some "to support not yet implemented"), []) ∧
    Client.GetPeerInfo env n reqID timeout =
      (.ret (none, some "tor support not yet implemented"), []) := by
  constructor
  · simp [Client.Connect, h]
  · simp [Client.GetPeerInfo, h]

/-- C1 witness: the onion fixture node triggers both immediate rejections. -/
theorem connect_getPeerInfo_onion_no_io_witness :
    onionNode.IsOnion = true ∧
    Client.Connect okEnv onionNode 5 = (.ret (none, some "to support not yet implemented"), []) ∧
    Client.GetPeerInfo okEnv onionNode 7 5 =
      (.ret (none, some "tor support not yet implemented"), []) :=
  ⟨by decide, (connect_getPeerInfo_onion_no_io okEnv onionNode 7 5 (by decide)).1,
    (connect_getPeerInfo_onion_no_io okEnv onionNode 7 5 (by decide)).2⟩

/-- C2 evidence: for a clearnet node advertising TLS support whose TLS dial
fails, Connect performs exactly one dial, the TLS one — it never attempts the
TCP path — but it then panics (Close on the nil connection returned by the
failed dial) instead of returning the dial error. -/
theorem connect_tls_dial_failure_no_fallback_but_panics :
    Client.Connect tlsFailEnv tlsNode 5 =
      (.panicked nilDeref, [.dialTLS "example.com:50002"]) := by decide

/-- C3 evidence: when the write fails inside SendRequestBytes, the function
returns the write error with a trace containing no close event at all: the
successfully established connection is leaked, contradicting the
closed-exactly-once guarantee. -/
theorem sendRequestBytes_write_failure_leaks_connection :
    Client.SendRequestBytes writeFailEnv (String.toList "ping") tcpNode 5 =
      (.ret (none, some "broken pipe"),
       [.dialTCP "example.com:50001", .write 1 (String.toList "ping\n")]) := by decide

/-- C4 evidence: when the response stream ends before any newline,
SendRequestBytes discards the read error and returns the partially-read
payload "partial" with a nil error, i.e. as a success, contradicting the
claim that such a stream yields a read/protocol error. -/
theorem sendRequestBytes_eof_returns_partial_as_success :
    Client.SendRequestBytes noNewlineEnv (String.toList "ping") tcpNode 5 =
      (.ret (some (String.toList "partial"), none),
       [.dialTCP "example.com:50001", .write 1 (String.toList "ping\n"), .read 1, .close 1]) := by
  decide

/-- C6 evidence: when the TCP dial fails, Connect calls Close on the nil
connection returned by the failed dial and panics; the dial error is never
returned and no secondary-diagnostic close of a real connection happens. -/
theorem connect_tcp_dial_failure_panics_on_nil_close :
    Client.Connect tcpFailEnv tcpNode 5 =
      (.panicked nilDeref, [.dialTCP "example.com:50001"]) := by decide

/-- C10: the overlay and capability guards hold at every public entry point
independently of Connect: GetTLSConn rejects any node without TLS support
with an error and an empty trace (no dial), and GetTLSConn and GetConn each
reject onion nodes before any network I/O. -/
theorem entry_points_reject_before_io (env : NetEnv) (t : Nat) :
    (∀ n : Node, n.SupportsTLS = false →
        (Client.GetTLSConn env n t).2 = [] ∧
          ((Client.GetTLSConn env n t).1.2).isSome = true) ∧
    (∀ n : Node, n.IsOnion = true →
        Client.GetTLSConn env n t = ((none, some "tor support not yet implemented"), [])) ∧
    (∀ n : Node, n.IsOnion = true →
        Client.GetConn env n t = ((none, some "tor support not yet implemented"), [])) := by
  refine ⟨fun n hT => ?_, fun n hI => ?_, fun n hI => ?_⟩
  · cases hI : n.IsOnion <;> simp [Client.GetTLSConn, hI, hT]
  · simp [Client.GetTLSConn, hI]
  · simp [Client.GetConn, hI]

/-- C10 witness: the non-TLS fixture node is rejected by GetTLSConn with no
dial, and the onion fixture node is rejected by both GetTLSConn and GetConn
with no dial. -/
theorem entry_points_reject_before_io_witness :
    ((Client.GetTLSConn okEnv tcpNode 5).2 = [] ∧
      ((Client.GetTLSConn okEnv tcpNode 5).1.2).isSome = true) ∧
    Client.GetTLSConn okEnv onionNode 5 = ((none, some "tor support not yet implemented"), []) ∧
    Client.GetConn okEnv onionNode 5 = ((none, some "tor support not yet implemented"), []) :=
  ⟨(entry_points_reject_before_io okEnv 5).1 tcpNode (by decide),
    (entry_points_reject_before_io okEnv 5).2.1 onionNode (by decide),
    (entry_points_reject_before_io okEnv 5).2.2 onionNode (by decide)⟩

/-- C5: when the top-level peer payload fails to decode, GetPeerInfo returns
that decode error together with a nil node list; when decoding succeeds and
parsing finds zero peers, it returns the empty list with a nil error; and the
two outcomes are distinguishable. -/
theorem getPeerInfo_decode_error_vs_zero_peers (env : NetEnv) (n : Node)
    (reqID timeout : Nat) (resp : List Char) (tr : List Ev)
    (hO : n.IsOnion = false)
    (hS : Client.SendRequest env (NewPeerRequest reqID) n timeout =
      (.ret (some resp, none), tr)) :
    (∀ e, env.unmarshalSPR resp = .error e →
        Client.GetPeerInfo env n reqID timeout = (.ret (none, some e), tr)) ∧
    (∀ spr, env.unmarshalSPR resp = .ok spr → env.parseSPR spr = .ok [] →
        Client.GetPeerInfo env n reqID timeout = (.ret (some [], none), tr)) ∧
    (∀ e : GoErr,
        (POut.ret ((none : Option (List Node)), some e)) ≠
          (POut.ret (some ([] : List Node), (none : Option GoErr)))) := by
  refine ⟨fun e he => ?_, fun spr h1 h2 => ?_, fun e => by simp⟩
  · simp [Client.GetPeerInfo, hO, hS, he]
  · simp [Client.GetPeerInfo, hO, hS, h1, h2]

/-- C5 witness: against the bad-payload fixture the call yields the decode
error with a nil list; against the all-good fixture it yields the empty list
with a nil error. -/
theorem getPeerInfo_decode_error_vs_zero_peers_witness :
    Client.GetPeerInfo badPayloadEnv tcpNode 7 5 =
      (.ret (none, some "invalid character"), peerTrace) ∧
    Client.GetPeerInfo okEnv tcpNode 7 5 = (.ret (some [], none), peerTrace) :=
  ⟨(getPeerInfo_decode_error_vs_zero_peers badPayloadEnv tcpNode 7 5
      (String.toList "pong\n") peerTrace (by decide) (by decide)).1
      "invalid character" (by rfl),
    (getPeerInfo_decode_error_vs_zero_peers okEnv tcpNode 7 5
      (String.toList "pong\n") peerTrace (by decide) (by decide)).2.1
      { Result := [] } (by rfl) (by rfl)⟩

/-- C7: whenever the connection is established, the write succeeds and the
response stream contains a newline, SendRequestBytes performs exactly one
write, of exactly the request bytes followed by one newline, then one read
yielding precisely the stream up to and including its first newline, which is
the returned record. -/
theorem sendRequestBytes_framing (env : NetEnv) (req : List Char) (n : Node)
    (timeout : Nat) (cid : ConnId) (tr : List Ev) (a b : List Char)
    (hC : Client.Connect env n timeout = (.ret (some cid, none), tr))
    (hW : env.writeRes cid (req ++ ['\n']) = none)
    (hR : env.recv cid = a ++ '\n' :: b)
    (ha : '\n' ∉ a) :
    Client.SendRequestBytes env req n timeout =
      (.ret (some (a ++ ['\n']), none),
       tr ++ [.write cid (req ++ ['\n']), .read cid, .close cid]) := by
  simp [Client.SendRequestBytes, hC, hW, readBytesNewline, hR,
    takeLine_append a b ha, closeConn]

/-- C7 witness: sending "ping" to the TCP fixture node in the all-good
environment writes "ping" plus a newline and returns the full line "pong"
with its newline. -/
theorem sendRequestBytes_framing_witness :
    Client.SendRequestBytes okEnv (String.toList "ping") tcpNode 5 =
      (.ret (some (String.toList "pong" ++ ['\n']), none),
       [Ev.dialTCP "example.com:50001"] ++
         [.write 1 (String.toList "ping" ++ ['\n']), .read 1, .close 1]) :=
  sendRequestBytes_framing okEnv (String.toList "ping") tcpNode 5 1
    [Ev.dialTCP "example.com:50001"] (String.toList "pong") []
    (by decide) (by decide) (by decide) (by decide)

/-- C8: the outcome of SendRequest, response bytes and error included, is the
same whatever the close oracle answers: a failure while closing the
connection never changes the primary result. -/
theorem sendRequest_close_failure_immaterial (env : NetEnv) (f : ConnId → Option GoErr)
    (req : JSONRPCRequest) (n : Node) (t : Nat) :
    Client.SendRequest { env with closeRes := f } req n t = Client.SendRequest env req n t := by
  simp only [Client.SendRequest, connect_closeRes_irrelevant, send_closeRes_irrelevant]
  rcases hc : (Client.Connect env n t).1 with ⟨conn, err⟩ | m
  · rcases err with e | _
    · rcases hs : (JSONRPCRequest.Send env req conn).1 with ⟨resp, serr⟩ | m
      · rcases serr with se | _
        · rcases conn with _ | cid <;> simp [hc, hs, closeConn]
        · rcases conn with _ | cid <;> simp [hc, hs, closeConn]
      · simp [hc, hs]
    · simp [hc]
  · simp [hc]

/-- C9: a node that is neither onion-classified nor TLS-capable and whose
plaintext port is zero still gets a plaintext dial, to host:0 — Connect and
GetConn perform no port-plausibility validation. -/
theorem connect_zero_port_attempts_tcp (env : NetEnv) (n : Node) (t : Nat)
    (hO : n.IsOnion = false) (hT : n.SupportsTLS = false) (hP : n.TCPPort = 0) :
    ((Client.Connect env n t).2).head? = some (.dialTCP (n.Host ++ ":0")) := by
  have h0 : n.Host ++ ":" ++ toString (0 : Nat) = n.Host ++ ":0" := by
    rw [String.append_assoc]; rfl
  simp only [Client.Connect, Client.GetConn, hO, hT, hP, h0]
  cases env.dialTCP (n.Host ++ ":0") t <;> simp [closeConn]

/-- C9 witness: the zero-port fixture node is dialed at example.com:0. -/
theorem connect_zero_port_attempts_tcp_witness :
    ((Client.Connect okEnv zeroPortNode 5).2).head? = some (.dialTCP "example.com:0") :=
  connect_zero_port_attempts_tcp okEnv zeroPortNode 5 (by decide) (by decide) (by decide)

end Electrum
